import Mathlib

/-!
Verification development for the BotReminder repository: a shallow embedding of
the reminder scheduling and deduplication core (`src/scheduler.py`,
`src/reminder_db.py`, `src/ai_service.py`, `src/notification_service.py`,
`src/calendar_service.py`) together with theorems settling the specification's
claims about it.

Modelling conventions:
- Instants are rationals, counting seconds on an absolute timeline (Python
  `datetime` subtraction yields `timedelta.total_seconds()`; the arithmetic the
  code performs on instants is subtraction and comparison, which the rational
  embedding reproduces exactly for whole-second inputs).
- The ambient wall clock (`datetime.now(...)`) becomes an explicit `now`
  parameter; the external oracle, and the per-channel delivery outcomes, become
  explicit function parameters resolving their nondeterminism.
- The calendar-date arithmetic performed by `ReminderDatabase.cleanup_old_reminders`
  (which manipulates year/month/day fields) is embedded separately over a
  `PyDateTime` record, since it is the only place the code looks inside a date.
- Fallible code returns `Except`; the cycle engine's instrumentation
  (which events were analyzed, which ledger checks, which gateway invocations)
  is recorded in ghost fields of the cycle state so that "the gateway is not
  invoked" is expressible.
-/

/-- An absolute instant, in seconds (embedding of a timezone-aware `datetime`). -/
abbrev Instant := ℚ

/-- Parsed calendar event, as produced by `CalendarService._parse_event`
(`calendar_service.py` lines 157-170; fields not consulted by the claims'
code paths are omitted). -/
structure Event where
  id : String
  summary : String
  description : String
  location : String
  start_time : Instant
deriving Repr, DecidableEq

/-- The analysis dictionary returned by
`AIService.analyze_event_and_generate_reminders` (`ai_service.py` lines 167-172
and 218-223). -/
structure Analysis where
  natural_summary : String
  importance_score : Int
  reminder_times : List Instant
  reminder_messages : List String
deriving Repr, DecidableEq

/-! ## Sent-reminder ledger (`reminder_db.py`) -/

/-- A row of the `sent_reminders` table (`reminder_db.py` lines 29-39); `sent_at`
and the autoincrement id are not consulted by any claim and are omitted. -/
structure LedgerEntry where
  event_id : String
  event_title : String
  event_start_time : Instant
  reminder_time : Instant
deriving Repr, DecidableEq

/-- `ReminderDatabase.reminder_already_sent` (`reminder_db.py` lines 59-79):
`SELECT COUNT(*) ... WHERE event_id = ? AND reminder_time = ?`, then `count > 0`.
Equality of stored ISO strings for same-zone aware datetimes coincides with
equality of the instants. -/
def reminder_already_sent (ledger : List LedgerEntry) (event_id : String)
    (reminder_time : Instant) : Bool :=
  ledger.any fun en => en.event_id == event_id && en.reminder_time == reminder_time

/-- `ReminderDatabase.mark_reminder_sent` (`reminder_db.py` lines 81-107):
INSERT of a new row. -/
def mark_reminder_sent (ledger : List LedgerEntry) (event_id event_title : String)
    (event_start_time reminder_time : Instant) : List LedgerEntry :=
  ledger ++ [⟨event_id, event_title, event_start_time, reminder_time⟩]

/-- A naive Python `datetime` value, carrying the calendar fields that
`cleanup_old_reminders` manipulates (microseconds are zeroed by the code and
omitted here). -/
structure PyDateTime where
  year : Nat
  month : Nat
  day : Nat
  hour : Nat
  minute : Nat
  second : Nat
deriving Repr, DecidableEq

def isLeapYear (y : Nat) : Bool :=
  (y % 4 == 0 && y % 100 != 0) || y % 400 == 0

def daysInMonth (y m : Nat) : Nat :=
  if m == 2 then (if isLeapYear y then 29 else 28)
  else if m == 4 || m == 6 || m == 9 || m == 11 then 30
  else 31

/-- Python `datetime.replace(day=newDay)`: CPython validates
`1 <= day <= days_in_month(year, month)` and raises `ValueError` otherwise. -/
def replaceDay (d : PyDateTime) (newDay : Int) : Except String PyDateTime :=
  if 1 ≤ newDay ∧ newDay ≤ (daysInMonth d.year d.month : Int) then
    Except.ok { d with day := newDay.toNat }
  else
    Except.error "ValueError: day is out of range for month"

/-- Chronological (equivalently, lexicographic-on-ISO-text, as SQLite compares
the stored strings) order on naive datetimes. -/
def dtLt (a b : PyDateTime) : Bool :=
  if a.year ≠ b.year then decide (a.year < b.year)
  else if a.month ≠ b.month then decide (a.month < b.month)
  else if a.day ≠ b.day then decide (a.day < b.day)
  else if a.hour ≠ b.hour then decide (a.hour < b.hour)
  else if a.minute ≠ b.minute then decide (a.minute < b.minute)
  else decide (a.second < b.second)

/-- A `sent_reminders` row as seen by the pruning query, with the event-start
snapshot kept in calendar form (the column stores `isoformat()` text). -/
structure DbRow where
  event_id : String
  event_title : String
  event_start_time : PyDateTime
  reminder_time : PyDateTime
deriving Repr, DecidableEq

/-- `ReminderDatabase.cleanup_old_reminders` (`reminder_db.py` lines 109-133):
zero the time-of-day fields of `datetime.now()`, then
`cutoff_date.replace(day=cutoff_date.day - days_old)` (which raises `ValueError`
whenever the resulting day number is not a valid day of the current month), then
`DELETE FROM sent_reminders WHERE event_start_time < ?`.  The Python function
returns `None`; the embedding returns the surviving table so the deletion is
observable, and propagates the `ValueError` as `Except.error`. -/
def cleanup_old_reminders (rows : List DbRow) (now : PyDateTime) (days_old : Nat) :
    Except String (List DbRow) :=
  let cutoff0 : PyDateTime := { now with hour := 0, minute := 0, second := 0 }
  match replaceDay cutoff0 ((cutoff0.day : Int) - (days_old : Int)) with
  | Except.error msg => Except.error msg
  | Except.ok cutoff => Except.ok (rows.filter fun r => !(dtLt r.event_start_time cutoff))

/-! ## Delivery gateway (`notification_service.py`) -/

/-- Channel-enablement configuration consumed by `NotificationService.__init__`. -/
structure NotifierConfig where
  email_enabled : Bool
  telegram_enabled : Bool
deriving Repr, DecidableEq

/-- Success aggregation of `NotificationService.send_reminder`
(`notification_service.py` lines 39-67): `success = False`; each enabled channel
is attempted and sets `success = True` on its own success; the aggregate is
returned.  `emailOk` / `telegramOk` are the outcomes of `_send_email` /
`_send_telegram` for this call. -/
def send_reminder (cfg : NotifierConfig) (emailOk telegramOk : Bool) : Bool :=
  (cfg.email_enabled && emailOk) || (cfg.telegram_enabled && telegramOk)

/-! ## Calendar fetch (`calendar_service.py`) -/

/-- `CalendarService.get_upcoming_events` (`calendar_service.py` lines 62-106)
at the granularity the cycle engine observes: a successful provider call yields
the parsed event list, an `HttpError` is caught and yields `[]`
(lines 104-106). -/
def get_upcoming_events (result : Except String (List Event)) : List Event :=
  match result with
  | Except.error _ => []
  | Except.ok evs => evs

/-! ## Reminder plan oracle (`ai_service.py`) -/

/-- One element of the decoded `reminder_schedule` JSON array:
`reminder.get('hours_before', 1)` and `reminder.get('message', ...)` mean both
keys are optional. -/
structure AiReplyItem where
  hours_before : Option ℚ
  message : Option String
deriving Repr, DecidableEq

/-- The decoded JSON payload of an oracle reply (`ai_data` in
`_parse_ai_response`); `get` with defaults means every key is optional. -/
structure AiReply where
  natural_summary : Option String
  importance_score : Option Int
  reminder_schedule : List AiReplyItem
deriving Repr, DecidableEq

/-- Loop body of `_parse_ai_response` (`ai_service.py` lines 151-158): convert
`hours_before` to an absolute instant `start - hours_before*3600` and keep it
only if strictly in the future. -/
def parseStep (start_time now : Instant) (acc : List Instant × List String)
    (item : AiReplyItem) : List Instant × List String :=
  let hours_before := item.hours_before.getD 1
  let reminder_time := start_time - hours_before * 3600
  if now < reminder_time then
    (acc.1 ++ [reminder_time], acc.2 ++ [item.message.getD "Upcoming event reminder"])
  else acc

/-- `AIService._parse_ai_response` (`ai_service.py` lines 144-172), starting
from the already-decoded JSON payload (the markdown-fence stripping and
`json.loads` of lines 133-144 are string plumbing whose failure routes to the
fallback and is not consulted by any claim).  If no reminder survived the
future-only filter, a single `now + 5 minutes` reminder is synthesized, guarded
to precede the event start (line 163). -/
def _parse_ai_response (r : AiReply) (e : Event) (now : Instant) : Analysis :=
  let folded := r.reminder_schedule.foldl (parseStep e.start_time now) ([], [])
  let chosen :=
    if folded.1.isEmpty then
      let reminder_time := now + 300
      if reminder_time < e.start_time then
        ([reminder_time], ["Immediate reminder: " ++ e.summary ++ " is coming up soon!"])
      else ([], [])
    else folded
  { natural_summary := r.natural_summary.getD e.summary
    importance_score := r.importance_score.getD 5
    reminder_times := chosen.1
    reminder_messages := chosen.2 }

/-- `AIService._fallback_analysis` (`ai_service.py` lines 181-223): candidate
offsets 24h/2h/15min gated on `hours_until` thresholds, a future-only filter
over the zipped (time, message) pairs, and — when nothing survives — one
unconditional `now + 5 minutes` reminder. -/
def _fallback_analysis (e : Event) (now : Instant) : Analysis :=
  let hours_until := (e.start_time - now) / 3600
  let reminder_times : List Instant := []
  let reminder_messages : List String := []
  let reminder_times :=
    if hours_until > 24 then reminder_times ++ [e.start_time - 86400] else reminder_times
  let reminder_messages :=
    if hours_until > 24 then reminder_messages ++ ["Tomorrow: " ++ e.summary]
    else reminder_messages
  let reminder_times :=
    if hours_until > 2 then reminder_times ++ [e.start_time - 7200] else reminder_times
  let reminder_messages :=
    if hours_until > 2 then reminder_messages ++ ["In 2 hours: " ++ e.summary]
    else reminder_messages
  let reminder_times :=
    if hours_until > 0.25 then reminder_times ++ [e.start_time - 900] else reminder_times
  let reminder_messages :=
    if hours_until > 0.25 then reminder_messages ++ ["Starting soon: " ++ e.summary]
    else reminder_messages
  let valid_reminders := (reminder_times.zip reminder_messages).filter fun p => now < p.1
  let chosen :=
    if valid_reminders.isEmpty then
      ([now + 300], ["Reminder: " ++ e.summary ++ " is coming up!"])
    else (valid_reminders.map Prod.fst, valid_reminders.map Prod.snd)
  { natural_summary := e.summary
    importance_score := 5
    reminder_times := chosen.1
    reminder_messages := chosen.2 }

/-! ## Cycle engine (`scheduler.py`) -/

/-- A value stored in the `processed_events` dict.  The code stores the dict
`{'hash': event_hash, 'analysis': analysis}` (line 69-72) but compares the
stored value directly against the hash string (line 63); to embed that
comparison faithfully the value universe contains both shapes. -/
inductive PyVal where
  | pstr : String → PyVal
  | record : String → Analysis → PyVal
deriving Repr, DecidableEq

/-- Python `value != event_hash` where `value` is a cache entry and `event_hash`
a `str`: a dict compares unequal to every string, and two strings compare by
content. -/
def pyNeStr : PyVal → String → Bool
  | PyVal.pstr s, h => s != h
  | PyVal.record _ _, _ => true

/-- Python `value['analysis']` on a cache entry (line 75).  On a string value
the source would raise `TypeError`; that branch is unreachable because only
record values are ever stored. -/
def getAnalysis : PyVal → Analysis
  | PyVal.record _ a => a
  | PyVal.pstr _ => ⟨"", 0, [], []⟩

/-- Membership/lookup in the `processed_events` dict. -/
def dictGet (d : List (String × PyVal)) (k : String) : Option PyVal :=
  (d.find? fun p => p.1 == k).map Prod.snd

/-- Assignment `d[k] = v` in the `processed_events` dict. -/
def dictSet (d : List (String × PyVal)) (k : String) (v : PyVal) :
    List (String × PyVal) :=
  (k, v) :: d.filter fun p => p.1 != k

/-- `ReminderScheduler._get_event_hash` (`scheduler.py` lines 117-120):
`f"{summary}_{start_time}_{location}"`. -/
def _get_event_hash (e : Event) : String :=
  e.summary ++ "_" ++ toString e.start_time ++ "_" ++ e.location

/-- State threaded through one cycle: the in-memory plan cache and the ledger,
plus ghost instrumentation (which event ids were sent to the oracle, which
ledger existence checks ran, which (event id, fire-instant) pairs were handed
to the gateway, how many prune invocations happened) and the cycle's
`reminders_sent` counter. -/
structure CycleState where
  processed_events : List (String × PyVal)
  ledger : List LedgerEntry
  oracleCalls : List String
  existsChecks : List (String × Instant)
  gatewayCalls : List (String × Instant)
  reminders_sent : Nat
  cleanupRuns : Nat
deriving Repr, DecidableEq

/-- Cycle state at the start of an invocation: carried-over cache and ledger,
fresh instrumentation, `reminders_sent = 0` (scheduler.py line 56). -/
def initCycleState (cache : List (String × PyVal)) (ledger : List LedgerEntry) :
    CycleState :=
  ⟨cache, ledger, [], [], [], 0, 0⟩

/-- Plan acquisition for one event (`scheduler.py` lines 59-75): analyze when
the id is absent from the cache or the stored value `!=` the hash string,
otherwise reuse `cache[event_id]['analysis']`.  `ai` resolves what the oracle
would answer for a given event at a given instant. -/
def planFor (ai : Event → Instant → Analysis) (now : Instant) (s : CycleState)
    (e : Event) : CycleState × Analysis :=
  let event_id := e.id
  let event_hash := _get_event_hash e
  match dictGet s.processed_events event_id with
  | none =>
      let a := ai e now
      ({ s with
          oracleCalls := s.oracleCalls ++ [event_id]
          processed_events := dictSet s.processed_events event_id (PyVal.record event_hash a) },
        a)
  | some v =>
      if pyNeStr v event_hash then
        let a := ai e now
        ({ s with
            oracleCalls := s.oracleCalls ++ [event_id]
            processed_events := dictSet s.processed_events event_id (PyVal.record event_hash a) },
          a)
      else (s, getAnalysis v)

/-- Per-reminder body of the cycle loop (`scheduler.py` lines 81-104): due test
`(reminder_time - now).total_seconds() <= 1200`, ledger existence check,
gateway invocation, commit on success.  `emailOk`/`telegramOk` resolve the
channel outcomes of the gateway call for a given (event id, fire-instant). -/
def processReminder (cfg : NotifierConfig) (emailOk telegramOk : String → Instant → Bool)
    (now : Instant) (e : Event) (s : CycleState) (rm : Instant × String) : CycleState :=
  let reminder_time := rm.1
  let time_until_reminder := reminder_time - now
  if time_until_reminder ≤ 1200 then
    let s1 := { s with existsChecks := s.existsChecks ++ [(e.id, reminder_time)] }
    if reminder_already_sent s1.ledger e.id reminder_time then s1
    else
      let s2 := { s1 with gatewayCalls := s1.gatewayCalls ++ [(e.id, reminder_time)] }
      if send_reminder cfg (emailOk e.id reminder_time) (telegramOk e.id reminder_time) then
        { s2 with
            ledger := mark_reminder_sent s2.ledger e.id e.summary e.start_time reminder_time
            reminders_sent := s2.reminders_sent + 1 }
      else s2
  else s

/-- Per-event body of the cycle loop (`scheduler.py` lines 58-104). -/
def processEvent (ai : Event → Instant → Analysis) (cfg : NotifierConfig)
    (emailOk telegramOk : String → Instant → Bool) (now : Instant)
    (s : CycleState) (e : Event) : CycleState :=
  let pr := planFor ai now s e
  (pr.2.reminder_times.zip pr.2.reminder_messages).foldl
    (processReminder cfg emailOk telegramOk now e) pr.1

/-- The `for event in events` loop of `check_and_send_reminders`. -/
def processAllEvents (ai : Event → Instant → Analysis) (cfg : NotifierConfig)
    (emailOk telegramOk : String → Instant → Bool) (now : Instant)
    (events : List Event) (s : CycleState) : CycleState :=
  events.foldl (processEvent ai cfg emailOk telegramOk now) s

/-- The `db.cleanup_old_reminders(days_old=30)` call at the end of the cycle
(`scheduler.py` lines 111-112).  `cutoffOpt` is the outcome of the cutoff-date
computation of `reminder_db.py` lines 119-122, projected onto the rational
timeline: `none` when `replace(day=...)` raised `ValueError` (the exception is
caught by the cycle's outer handler, leaving the ledger untouched), `some c`
when it produced a cutoff instant `c`. -/
def cleanup_step (cutoffOpt : Option Instant) (s : CycleState) : CycleState :=
  let s1 := { s with cleanupRuns := s.cleanupRuns + 1 }
  match cutoffOpt with
  | none => s1
  | some c => { s1 with ledger := s1.ledger.filter fun en => !(decide (en.event_start_time < c)) }

/-- `ReminderScheduler.check_and_send_reminders` (`scheduler.py` lines 40-115):
empty fetch returns immediately (line 51-53); otherwise the event loop runs and
then the periodic cleanup. -/
def check_and_send_reminders (ai : Event → Instant → Analysis) (cfg : NotifierConfig)
    (emailOk telegramOk : String → Instant → Bool) (now : Instant)
    (cutoffOpt : Option Instant) (events : List Event) (s : CycleState) : CycleState :=
  if events.isEmpty then s
  else cleanup_step cutoffOpt (processAllEvents ai cfg emailOk telegramOk now events s)

/-! ## Helper lemmas about the cycle engine -/

/-- The per-reminder step never touches the plan cache. -/
theorem processReminder_cache (cfg : NotifierConfig)
    (emailOk telegramOk : String → Instant → Bool) (now : Instant) (e : Event)
    (s : CycleState) (rm : Instant × String) :
    (processReminder cfg emailOk telegramOk now e s rm).processed_events
      = s.processed_events := by
  simp only [processReminder]
  split
  · split
    · rfl
    · split <;> rfl
  · rfl

/-- The per-reminder step never increments the prune counter. -/
theorem processReminder_cleanupRuns (cfg : NotifierConfig)
    (emailOk telegramOk : String → Instant → Bool) (now : Instant) (e : Event)
    (s : CycleState) (rm : Instant × String) :
    (processReminder cfg emailOk telegramOk now e s rm).cleanupRuns = s.cleanupRuns := by
  simp only [processReminder]
  split
  · split
    · rfl
    · split <;> rfl
  · rfl

/-- A pair recorded in the ledger stays recorded across a per-reminder step. -/
theorem processReminder_ledger_mono (cfg : NotifierConfig)
    (emailOk telegramOk : String → Instant → Bool) (now : Instant) (e : Event)
    (s : CycleState) (rm : Instant × String) (eid : String) (t : Instant)
    (h : reminder_already_sent s.ledger eid t = true) :
    reminder_already_sent (processReminder cfg emailOk telegramOk now e s rm).ledger eid t
      = true := by
  simp only [processReminder]
  split
  · split
    · exact h
    · split
      · simp only [mark_reminder_sent, reminder_already_sent, List.any_append] at h ⊢
        simp [h]
      · exact h
  · exact h

/-- Invariant used for the at-most-once theorems: the pair is committed in the
ledger and the gateway has not been invoked for it in this cycle. -/
def NoCall (eid : String) (t : Instant) (s : CycleState) : Prop :=
  reminder_already_sent s.ledger eid t = true ∧ (eid, t) ∉ s.gatewayCalls

/-- A per-reminder step never invokes the gateway for a pair the ledger already
records: the engine consults `reminder_already_sent` first. -/
theorem processReminder_noCall (cfg : NotifierConfig)
    (emailOk telegramOk : String → Instant → Bool) (now : Instant) (e : Event)
    (s : CycleState) (rm : Instant × String) (eid : String) (t : Instant)
    (h : NoCall eid t s) : NoCall eid t (processReminder cfg emailOk telegramOk now e s rm) := by
  obtain ⟨hL, hG⟩ := h
  simp only [processReminder]
  split
  · by_cases hs : reminder_already_sent s.ledger e.id rm.1 = true
    · rw [if_pos hs]
      exact ⟨hL, hG⟩
    · rw [if_neg hs]
      have hne : ¬((eid, t) = (e.id, rm.1)) := by
        intro hcontra
        apply hs
        obtain ⟨h1, h2⟩ := Prod.mk.injEq .. ▸ hcontra
        rw [← h1, ← h2]
        exact hL
      have hGmem : (eid, t) ∉ s.gatewayCalls ++ [(e.id, rm.1)] := by
        intro hmem
        rcases List.mem_append.mp hmem with hmem | hmem
        · exact hG hmem
        · exact hne (List.mem_singleton.mp hmem)
      split
      · refine ⟨?_, hGmem⟩
        simp only [mark_reminder_sent, reminder_already_sent, List.any_append] at hL ⊢
        simp [hL]
      · exact ⟨hL, hGmem⟩
  · exact ⟨hL, hG⟩

/-- `NoCall` is preserved through the reminder loop of one event. -/
theorem foldl_processReminder_noCall (cfg : NotifierConfig)
    (emailOk telegramOk : String → Instant → Bool) (now : Instant) (e : Event)
    (eid : String) (t : Instant) (rms : List (Instant × String)) :
    ∀ s : CycleState, NoCall eid t s →
      NoCall eid t (rms.foldl (processReminder cfg emailOk telegramOk now e) s) := by
  induction rms with
  | nil => intro s h; exact h
  | cons rm rms ih =>
      intro s h
      rw [List.foldl_cons]
      exact ih _ (processReminder_noCall cfg emailOk telegramOk now e s rm eid t h)

/-- Plan acquisition touches only the cache and the oracle-call log. -/
theorem planFor_state (ai : Event → Instant → Analysis) (now : Instant)
    (s : CycleState) (e : Event) :
    (planFor ai now s e).1.ledger = s.ledger ∧
    (planFor ai now s e).1.gatewayCalls = s.gatewayCalls ∧
    (planFor ai now s e).1.reminders_sent = s.reminders_sent ∧
    (planFor ai now s e).1.existsChecks = s.existsChecks ∧
    (planFor ai now s e).1.cleanupRuns = s.cleanupRuns := by
  cases hd : dictGet s.processed_events e.id with
  | none => simp [planFor, hd]
  | some v =>
      by_cases hb : pyNeStr v (_get_event_hash e) = true <;>
        simp [planFor, hd, hb]

/-- `NoCall` is preserved across one event's processing. -/
theorem processEvent_noCall (ai : Event → Instant → Analysis) (cfg : NotifierConfig)
    (emailOk telegramOk : String → Instant → Bool) (now : Instant)
    (s : CycleState) (e : Event) (eid : String) (t : Instant)
    (h : NoCall eid t s) :
    NoCall eid t (processEvent ai cfg emailOk telegramOk now s e) := by
  have hs := planFor_state ai now s e
  unfold processEvent
  apply foldl_processReminder_noCall
  refine ⟨?_, ?_⟩
  · rw [hs.1]; exact h.1
  · rw [hs.2.1]; exact h.2

/-- `NoCall` is preserved across the whole event loop. -/
theorem processAllEvents_noCall (ai : Event → Instant → Analysis) (cfg : NotifierConfig)
    (emailOk telegramOk : String → Instant → Bool) (now : Instant)
    (events : List Event) (eid : String) (t : Instant) :
    ∀ s : CycleState, NoCall eid t s →
      NoCall eid t (processAllEvents ai cfg emailOk telegramOk now events s) := by
  induction events with
  | nil => intro s h; exact h
  | cons e es ih =>
      intro s h
      unfold processAllEvents at *
      rw [List.foldl_cons]
      exact ih _ (processEvent_noCall ai cfg emailOk telegramOk now s e eid t h)

/-- The prune step touches only the ledger and the prune counter. -/
theorem cleanup_step_fields (cutoffOpt : Option Instant) (s : CycleState) :
    (cleanup_step cutoffOpt s).processed_events = s.processed_events ∧
    (cleanup_step cutoffOpt s).gatewayCalls = s.gatewayCalls ∧
    (cleanup_step cutoffOpt s).reminders_sent = s.reminders_sent ∧
    (cleanup_step cutoffOpt s).oracleCalls = s.oracleCalls ∧
    (cleanup_step cutoffOpt s).existsChecks = s.existsChecks := by
  cases cutoffOpt <;> exact ⟨rfl, rfl, rfl, rfl, rfl⟩

/-- Claim C1: once a (event id, fire-instant) pair is committed to the ledger,
an invocation of the cycle engine starting from that ledger never invokes the
delivery gateway for that pair: the engine asks `reminder_already_sent` before
sending and skips the pair when the check returns true. -/
theorem C1_no_regateway_after_commit (ai : Event → Instant → Analysis)
    (cfg : NotifierConfig) (emailOk telegramOk : String → Instant → Bool)
    (now : Instant) (cutoffOpt : Option Instant) (events : List Event)
    (cache : List (String × PyVal)) (ledger : List LedgerEntry)
    (eid : String) (t : Instant)
    (h : reminder_already_sent ledger eid t = true) :
    (eid, t) ∉ (check_and_send_reminders ai cfg emailOk telegramOk now cutoffOpt events
        (initCycleState cache ledger)).gatewayCalls := by
  unfold check_and_send_reminders
  split
  · simp [initCycleState]
  · rw [(cleanup_step_fields cutoffOpt _).2.1]
    have hinit : NoCall eid t (initCycleState cache ledger) := by
      refine ⟨h, ?_⟩
      simp [initCycleState]
    exact (processAllEvents_noCall ai cfg emailOk telegramOk now events eid t
      (initCycleState cache ledger) hinit).2

set_option maxRecDepth 100000 in
/-- Witness for C1: with a concrete committed pair in the ledger, the cycle
does not call the gateway for it even though the reminder is due. -/
theorem C1_no_regateway_after_commit_witness :
    reminder_already_sent [⟨"e1", "Standup", 5000, 1000⟩] "e1" 1000 = true ∧
    ("e1", (1000 : Instant)) ∉ (check_and_send_reminders
        (fun e _ => ⟨"sum", 5, [e.start_time - 900], ["msg"]⟩) ⟨true, false⟩
        (fun _ _ => true) (fun _ _ => true) 900 none
        [⟨"e1", "Standup", "", "", 5000⟩]
        (initCycleState [] [⟨"e1", "Standup", 5000, 1000⟩])).gatewayCalls := by
  constructor
  · with_unfolding_all decide
  · exact C1_no_regateway_after_commit
      (fun e _ => ⟨"sum", 5, [e.start_time - 900], ["msg"]⟩) ⟨true, false⟩
      (fun _ _ => true) (fun _ _ => true) 900 none
      [⟨"e1", "Standup", "", "", 5000⟩] [] [⟨"e1", "Standup", 5000, 1000⟩]
      "e1" 1000 (by with_unfolding_all decide)

/-- Claim C4: the per-reminder step of the cycle treats a reminder as due
exactly when its fire-instant minus `now` is at most 1200 seconds (negative
differences included): for a not-yet-sent pair, being within the window is
equivalent to the gateway being invoked, and outside the window the step
changes nothing at all. -/
theorem C4_due_window (cfg : NotifierConfig)
    (emailOk telegramOk : String → Instant → Bool) (now : Instant) (e : Event)
    (s : CycleState) (t : Instant) (m : String)
    (hfresh : reminder_already_sent s.ledger e.id t = false) :
    (t - now ≤ 1200 →
      (processReminder cfg emailOk telegramOk now e s (t, m)).gatewayCalls
        = s.gatewayCalls ++ [(e.id, t)]) ∧
    (1200 < t - now →
      processReminder cfg emailOk telegramOk now e s (t, m) = s) := by
  constructor
  · intro hdue
    simp only [processReminder]
    rw [if_pos hdue, if_neg (by simpa using hfresh)]
    split <;> rfl
  · intro hlate
    simp only [processReminder]
    rw [if_neg (not_le.mpr hlate)]

set_option maxRecDepth 100000 in
/-- Witness for C4: at `now = 0`, a fresh reminder at +1140 s (19 min) is sent
to the gateway, one at -300 s (missed 5 min ago) is sent, and one at +1260 s
(21 min) leaves the state untouched. -/
theorem C4_due_window_witness :
    reminder_already_sent ([] : List LedgerEntry) "e1" 1140 = false ∧
    (processReminder ⟨true, false⟩ (fun _ _ => true) (fun _ _ => true) 0
        ⟨"e1", "S", "", "", 5000⟩ (initCycleState [] []) (1140, "m")).gatewayCalls
      = [("e1", 1140)] ∧
    (processReminder ⟨true, false⟩ (fun _ _ => true) (fun _ _ => true) 0
        ⟨"e1", "S", "", "", 5000⟩ (initCycleState [] []) (-300, "m")).gatewayCalls
      = [("e1", -300)] ∧
    processReminder ⟨true, false⟩ (fun _ _ => true) (fun _ _ => true) 0
        ⟨"e1", "S", "", "", 5000⟩ (initCycleState [] []) (1260, "m")
      = initCycleState [] [] := by
  refine ⟨by with_unfolding_all decide, ?_, ?_, ?_⟩
  · have := (C4_due_window ⟨true, false⟩ (fun _ _ => true) (fun _ _ => true) 0
      ⟨"e1", "S", "", "", 5000⟩ (initCycleState [] []) 1140 "m"
      (by with_unfolding_all decide)).1 (by norm_num)
    simpa [initCycleState] using this
  · have := (C4_due_window ⟨true, false⟩ (fun _ _ => true) (fun _ _ => true) 0
      ⟨"e1", "S", "", "", 5000⟩ (initCycleState [] []) (-300) "m"
      (by with_unfolding_all decide)).1 (by norm_num)
    simpa [initCycleState] using this
  · exact (C4_due_window ⟨true, false⟩ (fun _ _ => true) (fun _ _ => true) 0
      ⟨"e1", "S", "", "", 5000⟩ (initCycleState [] []) 1260 "m"
      (by with_unfolding_all decide)).2 (by norm_num)

/-- If the gateway reports failure for every call, a per-reminder step never
changes the ledger. -/
theorem processReminder_ledger_allfail (cfg : NotifierConfig)
    (emailOk telegramOk : String → Instant → Bool) (now : Instant) (e : Event)
    (s : CycleState) (rm : Instant × String)
    (hfail : ∀ eid t, send_reminder cfg (emailOk eid t) (telegramOk eid t) = false) :
    (processReminder cfg emailOk telegramOk now e s rm).ledger = s.ledger := by
  simp only [processReminder]
  split
  · split
    · rfl
    · rw [if_neg (by simp [hfail e.id rm.1])]
  · rfl

/-- All-channels-failing leaves the ledger unchanged across one event's loop. -/
theorem foldl_processReminder_ledger_allfail (cfg : NotifierConfig)
    (emailOk telegramOk : String → Instant → Bool) (now : Instant) (e : Event)
    (rms : List (Instant × String))
    (hfail : ∀ eid t, send_reminder cfg (emailOk eid t) (telegramOk eid t) = false) :
    ∀ s : CycleState,
      (rms.foldl (processReminder cfg emailOk telegramOk now e) s).ledger = s.ledger := by
  induction rms with
  | nil => intro s; rfl
  | cons rm rms ih =>
      intro s
      rw [List.foldl_cons, ih _,
        processReminder_ledger_allfail cfg emailOk telegramOk now e s rm hfail]

/-- All-channels-failing leaves the ledger unchanged across the whole event loop. -/
theorem processAllEvents_ledger_allfail (ai : Event → Instant → Analysis)
    (cfg : NotifierConfig) (emailOk telegramOk : String → Instant → Bool)
    (now : Instant) (events : List Event)
    (hfail : ∀ eid t, send_reminder cfg (emailOk eid t) (telegramOk eid t) = false) :
    ∀ s : CycleState,
      (processAllEvents ai cfg emailOk telegramOk now events s).ledger = s.ledger := by
  induction events with
  | nil => intro s; rfl
  | cons e es ih =>
      intro s
      unfold processAllEvents at *
      rw [List.foldl_cons, ih _]
      unfold processEvent
      rw [foldl_processReminder_ledger_allfail cfg emailOk telegramOk now e _ hfail,
        (planFor_state ai now s e).1]

/-- Claim C8: for a due, not-yet-committed reminder, a ledger entry is created
exactly when the gateway reports success on at least one enabled channel; when
the gateway fails, no commit happens, the pair stays absent from the ledger,
and (for any event list) an all-channels-failing cycle leaves the ledger
unchanged, so the reminders stay eligible for retry. -/
theorem C8_commit_iff_gateway_success (ai : Event → Instant → Analysis)
    (cfg : NotifierConfig) (emailOk telegramOk : String → Instant → Bool)
    (now : Instant) (e : Event) (s : CycleState) (t : Instant) (m : String)
    (hdue : t - now ≤ 1200)
    (hfresh : reminder_already_sent s.ledger e.id t = false) :
    (send_reminder cfg (emailOk e.id t) (telegramOk e.id t) = true →
      (processReminder cfg emailOk telegramOk now e s (t, m)).ledger
        = mark_reminder_sent s.ledger e.id e.summary e.start_time t ∧
      (processReminder cfg emailOk telegramOk now e s (t, m)).reminders_sent
        = s.reminders_sent + 1) ∧
    (send_reminder cfg (emailOk e.id t) (telegramOk e.id t) = false →
      (processReminder cfg emailOk telegramOk now e s (t, m)).ledger = s.ledger ∧
      reminder_already_sent
        (processReminder cfg emailOk telegramOk now e s (t, m)).ledger e.id t = false) ∧
    (∀ (events : List Event) (s₀ : CycleState),
      (∀ eid t₀, send_reminder cfg (emailOk eid t₀) (telegramOk eid t₀) = false) →
      (processAllEvents ai cfg emailOk telegramOk now events s₀).ledger = s₀.ledger) := by
  refine ⟨?_, ?_, ?_⟩
  · intro hsend
    simp only [processReminder]
    rw [if_pos hdue, if_neg (by simpa using hfresh), if_pos hsend]
    exact ⟨rfl, rfl⟩
  · intro hsend
    simp only [processReminder]
    rw [if_pos hdue, if_neg (by simpa using hfresh), if_neg (by simp [hsend])]
    exact ⟨rfl, hfresh⟩
  · intro events s₀ hfail
    exact processAllEvents_ledger_allfail ai cfg emailOk telegramOk now events hfail s₀

set_option maxRecDepth 100000 in
/-- Witness for C8: a due fresh reminder with a succeeding email channel commits
one ledger entry; with both channels failing the ledger stays empty. -/
theorem C8_commit_iff_gateway_success_witness :
    ((1000 : Instant) - 0 ≤ 1200) ∧
    (processReminder ⟨true, false⟩ (fun _ _ => true) (fun _ _ => false) 0
        ⟨"e1", "S", "", "", 5000⟩ (initCycleState [] []) (1000, "m")).ledger
      = [⟨"e1", "S", 5000, 1000⟩] ∧
    (processReminder ⟨true, false⟩ (fun _ _ => false) (fun _ _ => false) 0
        ⟨"e1", "S", "", "", 5000⟩ (initCycleState [] []) (1000, "m")).ledger
      = [] := by
  refine ⟨by norm_num, ?_, ?_⟩
  · have := (C8_commit_iff_gateway_success (fun e _ => ⟨"", 5, [], []⟩) ⟨true, false⟩
      (fun _ _ => true) (fun _ _ => false) 0 ⟨"e1", "S", "", "", 5000⟩
      (initCycleState [] []) 1000 "m" (by norm_num)
      (by with_unfolding_all decide)).1 (by with_unfolding_all decide)
    simpa [initCycleState, mark_reminder_sent] using this.1
  · have := ((C8_commit_iff_gateway_success (fun e _ => ⟨"", 5, [], []⟩) ⟨true, false⟩
      (fun _ _ => false) (fun _ _ => false) 0 ⟨"e1", "S", "", "", 5000⟩
      (initCycleState [] []) 1000 "m" (by norm_num)
      (by with_unfolding_all decide)).2).1 (by with_unfolding_all decide)
    simpa [initCycleState] using this.1

/-- Claim C10: an HTTP failure of the calendar fetch yields the empty event
list, and the cycle engine then returns its input state unchanged — no oracle
call, no ledger existence check, no gateway invocation, no prune — exactly as
it does for a successful fetch with no upcoming events. -/
theorem C10_fetch_failure_is_empty_window (ai : Event → Instant → Analysis)
    (cfg : NotifierConfig) (emailOk telegramOk : String → Instant → Bool)
    (now : Instant) (cutoffOpt : Option Instant) (err : String) (s : CycleState) :
    check_and_send_reminders ai cfg emailOk telegramOk now cutoffOpt
        (get_upcoming_events (Except.error err)) s = s ∧
    check_and_send_reminders ai cfg emailOk telegramOk now cutoffOpt
        (get_upcoming_events (Except.ok [])) s = s := by
  exact ⟨rfl, rfl⟩

/-- Claim C3 (code evaluation): pruning with a 30-day retention raises
`ValueError` instead of completing, on any current date whose day-of-month is
at most 30 — here 2026-10-12 14:30:00 — because the code computes the cutoff
via `replace(day=cutoff_date.day - days_old)`. -/
theorem C3_prune_raises_on_oct12 :
    cleanup_old_reminders [] ⟨2026, 10, 12, 14, 30, 0⟩ 30
      = Except.error "ValueError: day is out of range for month" ∧
    cleanup_old_reminders
        [⟨"e1", "Old", ⟨2026, 9, 11, 9, 0, 0⟩, ⟨2026, 9, 11, 8, 0, 0⟩⟩]
        ⟨2026, 10, 12, 14, 30, 0⟩ 30
      = Except.error "ValueError: day is out of range for month" := by
  exact ⟨rfl, rfl⟩

/-- Concrete unchanged event used to exercise the plan cache across two cycles. -/
def cacheProbeEvent : Event := ⟨"e1", "Standup", "old words", "Room 1", 100000⟩

/-- Deterministic resolution of the oracle for the cache probe. -/
def cacheProbeAi : Event → Instant → Analysis :=
  fun e _ => ⟨"sum", 5, [e.start_time - 900], ["msg"]⟩

/-- First cycle of the cache probe, starting from an empty cache and ledger. -/
def cacheProbeRun1 : CycleState :=
  check_and_send_reminders cacheProbeAi ⟨false, false⟩ (fun _ _ => false)
    (fun _ _ => false) 0 none [cacheProbeEvent] (initCycleState [] [])

/-- Second cycle of the cache probe: same event (identical title, start time and
location, hence identical version key), same `now`, cache and ledger carried
over from the first cycle. -/
def cacheProbeRun2 : CycleState :=
  check_and_send_reminders cacheProbeAi ⟨false, false⟩ (fun _ _ => false)
    (fun _ _ => false) 0 none [cacheProbeEvent] (initCycleState
      cacheProbeRun1.processed_events cacheProbeRun1.ledger)

set_option maxRecDepth 400000 in
/-- Claim C2 (code evaluation at the failing input): re-running the cycle on an
unchanged event re-invokes the oracle instead of reusing the cached plan — the
cached value is the dict `{'hash': ..., 'analysis': ...}`, which the comparison
at `scheduler.py` line 63 matches against the bare hash string, so it never
compares equal.  The first run did populate the cache for `"e1"`. -/
theorem C2_cache_never_reused :
    cacheProbeRun2.oracleCalls = ["e1"] ∧
    cacheProbeRun1.oracleCalls = ["e1"] ∧
    (dictGet cacheProbeRun1.processed_events "e1").isSome = true := by
  refine ⟨?_, ?_, ?_⟩ <;> with_unfolding_all decide

set_option maxRecDepth 100000 in
/-- Counterexample to claim C5: for an event starting in 10 minutes
(`start = now + 600`), the fallback plan has exactly one entry, but it is the
synthesized immediate `now + 5 minutes` reminder, not the 15-minute-before one:
the 15-minute candidate requires strictly more than 15 minutes until start
(`hours_until > 0.25`), which 10 minutes does not satisfy. -/
theorem C5_ten_minute_event_counterexample :
    (_fallback_analysis ⟨"e1", "S", "", "", 600⟩ 0).reminder_times = [300] ∧
    (_fallback_analysis ⟨"e1", "S", "", "", 600⟩ 0).reminder_messages
      = ["Reminder: S is coming up!"] ∧
    ¬((300 : Instant) = 600 - 900) := by
  refine ⟨?_, ?_, ?_⟩ <;> with_unfolding_all decide

set_option maxRecDepth 100000 in
/-- Counterexample to claim C6: an oracle reply whose offsets are all in the
past does not always yield the synthesized near-term entry — for an event
starting in 2 minutes (`start = now + 120`) with a 1-hour offset, the filtered
schedule is empty and `now + 5 minutes` fails the precede-start guard, so the
returned plan has no entries at all. -/
theorem C6_past_offsets_empty_plan_counterexample :
    (_parse_ai_response ⟨none, none, [⟨some 1, some "m"⟩]⟩
        ⟨"e1", "S", "", "", 120⟩ 0).reminder_times = [] ∧
    ((120 : Instant) - 1 * 3600 ≤ 0) ∧
    ¬(((_parse_ai_response ⟨none, none, [⟨some 1, some "m"⟩]⟩
        ⟨"e1", "S", "", "", 120⟩ 0).reminder_times) = [(300 : Instant)]) := by
  refine ⟨?_, ?_, ?_⟩ <;> with_unfolding_all decide

set_option maxRecDepth 100000 in
/-- Counterexample to claim C7: in the fallback path the synthesized
`now + 5 minutes` entry is not guarded by the event start — for an event
starting in 2 minutes (`start = now + 120`) the fallback plan still contains
the `now + 300` entry, which does not precede the start. -/
theorem C7_fallback_unguarded_counterexample :
    (_fallback_analysis ⟨"e1", "S", "", "", 120⟩ 0).reminder_times = [300] ∧
    ¬((300 : Instant) < 120) := by
  refine ⟨?_, ?_⟩ <;> with_unfolding_all decide

/-- More than 24 hours until start: the fallback emits all three candidates. -/
theorem fallback_far (e : Event) (now : Instant) (h : 86400 < e.start_time - now) :
    (_fallback_analysis e now).reminder_times
      = [e.start_time - 86400, e.start_time - 7200, e.start_time - 900] ∧
    (_fallback_analysis e now).reminder_messages
      = ["Tomorrow: " ++ e.summary, "In 2 hours: " ++ e.summary,
         "Starting soon: " ++ e.summary] := by
  have h24 : (e.start_time - now) / 3600 > 24 := by
    rw [gt_iff_lt, lt_div_iff₀ (by norm_num : (0:ℚ) < 3600)]; linarith
  have h2 : (e.start_time - now) / 3600 > 2 := by
    rw [gt_iff_lt, lt_div_iff₀ (by norm_num : (0:ℚ) < 3600)]; linarith
  have h025 : (e.start_time - now) / 3600 > 0.25 := by
    rw [gt_iff_lt, lt_div_iff₀ (by norm_num : (0:ℚ) < 3600)]; linarith
  have k1 : now < e.start_time - 86400 := by linarith
  have k2 : now < e.start_time - 7200 := by linarith
  have k3 : now < e.start_time - 900 := by linarith
  simp only [_fallback_analysis, if_pos h24, if_pos h2, if_pos h025]
  simp [k1, k2, k3]

/-- Between 2 and 24 hours until start: the fallback emits the 2-hour and
15-minute candidates. -/
theorem fallback_mid (e : Event) (now : Instant) (h1 : 7200 < e.start_time - now)
    (h2 : e.start_time - now ≤ 86400) :
    (_fallback_analysis e now).reminder_times = [e.start_time - 7200, e.start_time - 900] ∧
    (_fallback_analysis e now).reminder_messages
      = ["In 2 hours: " ++ e.summary, "Starting soon: " ++ e.summary] := by
  have h24 : ¬((e.start_time - now) / 3600 > 24) := by
    rw [gt_iff_lt, not_lt, div_le_iff₀ (by norm_num : (0:ℚ) < 3600)]; linarith
  have hh2 : (e.start_time - now) / 3600 > 2 := by
    rw [gt_iff_lt, lt_div_iff₀ (by norm_num : (0:ℚ) < 3600)]; linarith
  have h025 : (e.start_time - now) / 3600 > 0.25 := by
    rw [gt_iff_lt, lt_div_iff₀ (by norm_num : (0:ℚ) < 3600)]; linarith
  have k2 : now < e.start_time - 7200 := by linarith
  have k3 : now < e.start_time - 900 := by linarith
  simp only [_fallback_analysis, if_neg h24, if_pos hh2, if_pos h025]
  simp [k2, k3]

/-- Between 15 minutes and 2 hours until start: the fallback emits only the
15-minute candidate. -/
theorem fallback_soon (e : Event) (now : Instant) (h1 : 900 < e.start_time - now)
    (h2 : e.start_time - now ≤ 7200) :
    (_fallback_analysis e now).reminder_times = [e.start_time - 900] ∧
    (_fallback_analysis e now).reminder_messages = ["Starting soon: " ++ e.summary] := by
  have h24 : ¬((e.start_time - now) / 3600 > 24) := by
    rw [gt_iff_lt, not_lt, div_le_iff₀ (by norm_num : (0:ℚ) < 3600)]; linarith
  have hh2 : ¬((e.start_time - now) / 3600 > 2) := by
    rw [gt_iff_lt, not_lt, div_le_iff₀ (by norm_num : (0:ℚ) < 3600)]; linarith
  have h025 : (e.start_time - now) / 3600 > 0.25 := by
    rw [gt_iff_lt, lt_div_iff₀ (by norm_num : (0:ℚ) < 3600)]; linarith
  have k3 : now < e.start_time - 900 := by linarith
  simp only [_fallback_analysis, if_neg h24, if_neg hh2, if_pos h025]
  simp [k3]

/-- At most 15 minutes until start (or already started): no candidate survives
and the fallback synthesizes the single `now + 5 minutes` entry, with no guard
against the event start. -/
theorem fallback_near (e : Event) (now : Instant) (h : e.start_time - now ≤ 900) :
    (_fallback_analysis e now).reminder_times = [now + 300] ∧
    (_fallback_analysis e now).reminder_messages
      = ["Reminder: " ++ e.summary ++ " is coming up!"] := by
  have h24 : ¬((e.start_time - now) / 3600 > 24) := by
    rw [gt_iff_lt, not_lt, div_le_iff₀ (by norm_num : (0:ℚ) < 3600)]; linarith
  have hh2 : ¬((e.start_time - now) / 3600 > 2) := by
    rw [gt_iff_lt, not_lt, div_le_iff₀ (by norm_num : (0:ℚ) < 3600)]; linarith
  have h025 : ¬((e.start_time - now) / 3600 > 0.25) := by
    rw [gt_iff_lt, not_lt, div_le_iff₀ (by norm_num : (0:ℚ) < 3600)]; linarith
  simp only [_fallback_analysis, if_neg h24, if_neg hh2, if_neg h025]
  simp

/-- Claim C5 as amended: each candidate offset (24 h, 2 h, 15 min) appears in
the fallback plan exactly when strictly more than that much time remains before
start at generation time, with importance 5 and the raw title as summary; an
event more than 24 h away gets exactly the three offset entries; an event
starting in 10 minutes gets exactly one entry, namely the synthesized
`now + 5 minutes` immediate reminder (no candidate threshold is met), and the
same single synthesized entry appears whenever at most 15 minutes remain. -/
theorem C5_fallback_schedule (e : Event) (now : Instant) :
    (_fallback_analysis e now).natural_summary = e.summary ∧
    (_fallback_analysis e now).importance_score = 5 ∧
    (86400 < e.start_time - now →
      (_fallback_analysis e now).reminder_times
        = [e.start_time - 86400, e.start_time - 7200, e.start_time - 900]) ∧
    (7200 < e.start_time - now → e.start_time - now ≤ 86400 →
      (_fallback_analysis e now).reminder_times
        = [e.start_time - 7200, e.start_time - 900]) ∧
    (900 < e.start_time - now → e.start_time - now ≤ 7200 →
      (_fallback_analysis e now).reminder_times = [e.start_time - 900]) ∧
    (e.start_time - now ≤ 900 →
      (_fallback_analysis e now).reminder_times = [now + 300] ∧
      (_fallback_analysis e now).reminder_messages
        = ["Reminder: " ++ e.summary ++ " is coming up!"]) := by
  refine ⟨rfl, rfl, ?_, ?_, ?_, ?_⟩
  · intro h; exact (fallback_far e now h).1
  · intro h1 h2; exact (fallback_mid e now h1 h2).1
  · intro h1 h2; exact (fallback_soon e now h1 h2).1
  · intro h; exact fallback_near e now h

/-- Witness for C5: a far event (start = now + 100000 s > 24 h) yields exactly
the three offset entries; the 10-minute event (start = now + 600) yields
exactly the synthesized immediate entry. -/
theorem C5_fallback_schedule_witness :
    ((86400 : ℚ) < 100000 - 0 ∧
      (_fallback_analysis ⟨"e1", "S", "", "", 100000⟩ 0).reminder_times
        = [100000 - 86400, 100000 - 7200, 100000 - 900]) ∧
    ((600 : ℚ) - 0 ≤ 900 ∧
      (_fallback_analysis ⟨"e2", "T", "", "", 600⟩ 0).reminder_times = [0 + 300]) := by
  constructor
  · exact ⟨by norm_num,
      (C5_fallback_schedule ⟨"e1", "S", "", "", 100000⟩ 0).2.2.1 (by norm_num)⟩
  · exact ⟨by norm_num,
      ((C5_fallback_schedule ⟨"e2", "T", "", "", 600⟩ 0).2.2.2.2.2 (by norm_num)).1⟩

/-- The future-only filter of the oracle-reply loop: every time accumulated by
`parseStep` is strictly in the future. -/
theorem parseStep_foldl_future (start now : Instant) (sched : List AiReplyItem) :
    ∀ acc : List Instant × List String, (∀ t ∈ acc.1, now < t) →
      ∀ t ∈ (sched.foldl (parseStep start now) acc).1, now < t := by
  induction sched with
  | nil => intro acc h; exact h
  | cons item sched ih =>
      intro acc h
      rw [List.foldl_cons]
      apply ih
      simp only [parseStep]
      split
      next hcond =>
        intro t ht
        rcases List.mem_append.mp ht with ht | ht
        · exact h t ht
        · rw [List.mem_singleton.mp ht]; exact hcond
      next => exact h

/-- If every offset of the reply lies in the past, the conversion loop keeps
nothing. -/
theorem parseStep_foldl_allpast (start now : Instant) (sched : List AiReplyItem) :
    ∀ acc : List Instant × List String,
      (∀ item ∈ sched, start - (item.hours_before.getD 1) * 3600 ≤ now) →
      sched.foldl (parseStep start now) acc = acc := by
  induction sched with
  | nil => intro acc _; rfl
  | cons item sched ih =>
      intro acc h
      rw [List.foldl_cons]
      have hstep : parseStep start now acc item = acc := by
        simp only [parseStep]
        rw [if_neg (not_lt.mpr (h item (List.mem_cons_self item sched)))]
      rw [hstep, ih acc fun it hit => h it (List.mem_cons_of_mem item hit)]

/-- The final selection step of the fallback (future-filter, else synthesize
`now + 300`) only ever yields future instants, whatever the candidate list. -/
theorem fallback_chosen_future (l : List (Instant × String)) (now : Instant) (m : String) :
    ∀ t ∈ (if (l.filter fun p => now < p.1).isEmpty then ([now + 300], [m])
           else ((l.filter fun p => now < p.1).map Prod.fst,
                 (l.filter fun p => now < p.1).map Prod.snd)).1, now < t := by
  intro t ht
  split at ht
  · have ht' : t ∈ [now + 300] := ht
    rw [List.mem_singleton.mp ht']
    linarith
  · have ht' : t ∈ (l.filter fun p => now < p.1).map Prod.fst := ht
    obtain ⟨p, hp, hpt⟩ := List.mem_map.mp ht'
    have hd := (List.mem_filter.mp hp).2
    rw [← hpt]
    simpa using hd

/-- Every fire-instant of a fallback plan is strictly in the future. -/
theorem fallback_future (e : Event) (now : Instant) :
    ∀ t ∈ (_fallback_analysis e now).reminder_times, now < t := by
  intro t ht
  simp only [_fallback_analysis] at ht
  exact fallback_chosen_future _ now _ t ht

/-- Claim C6 as amended: every fire-instant of a generated plan — parsed oracle
reply or deterministic fallback — is strictly greater than the generation
instant; and an oracle reply whose offsets are all in the past yields the
single synthesized `now + 5 minutes` entry when that instant still precedes the
event start, and the empty plan otherwise. -/
theorem C6_plans_future_only (r : AiReply) (e : Event) (now : Instant) :
    (∀ t ∈ (_parse_ai_response r e now).reminder_times, now < t) ∧
    (∀ t ∈ (_fallback_analysis e now).reminder_times, now < t) ∧
    ((∀ item ∈ r.reminder_schedule,
        e.start_time - (item.hours_before.getD 1) * 3600 ≤ now) →
      (_parse_ai_response r e now).reminder_times
        = if now + 300 < e.start_time then [now + 300] else []) := by
  refine ⟨?_, fallback_future e now, ?_⟩
  · intro t ht
    simp only [_parse_ai_response] at ht
    split at ht
    · split at ht
      · have ht' : t ∈ [now + 300] := ht
        rw [List.mem_singleton.mp ht']
        linarith
      · have ht' : t ∈ ([] : List Instant) := ht
        simp at ht'
    · exact parseStep_foldl_future e.start_time now r.reminder_schedule ([], [])
        (by intro t ht; simp at ht) t ht
  · intro hpast
    have hempty := parseStep_foldl_allpast e.start_time now r.reminder_schedule ([], []) hpast
    by_cases hg : now + 300 < e.start_time <;>
      simp [_parse_ai_response, hempty, hg]

/-- Witness for C6: an all-past reply (one 1-hour offset against an event
starting in exactly one hour) produces exactly the synthesized entry. -/
theorem C6_plans_future_only_witness :
    (_parse_ai_response ⟨none, none, [⟨some 1, some "m"⟩]⟩
        ⟨"e1", "S", "", "", 3600⟩ 0).reminder_times = [300] := by
  have := (C6_plans_future_only ⟨none, none, [⟨some 1, some "m"⟩]⟩
      ⟨"e1", "S", "", "", 3600⟩ 0).2.2 (by
    intro item hit
    rw [List.mem_singleton.mp hit]
    norm_num)
  simpa using this

/-- Claim C7 as amended: when the future-only filter leaves zero candidates,
the parsed-oracle path synthesizes the `now + 5 minutes` entry only if it still
precedes the event start (yielding the empty plan otherwise), while the
fallback path synthesizes it unconditionally. -/
theorem C7_zero_survivor_synthesis (r : AiReply) (e : Event) (now : Instant) :
    ((r.reminder_schedule.foldl (parseStep e.start_time now) ([], [])).1 = [] →
      (_parse_ai_response r e now).reminder_times
        = if now + 300 < e.start_time then [now + 300] else []) ∧
    (e.start_time - now ≤ 900 →
      (_fallback_analysis e now).reminder_times = [now + 300]) := by
  constructor
  · intro hempty
    by_cases hg : now + 300 < e.start_time <;>
      simp [_parse_ai_response, hempty, hg]
  · intro h
    exact (fallback_near e now h).1

/-- Witness for C7: an empty oracle schedule against a far event yields the
guarded synthesized entry; an event starting in 2 minutes still receives the
unguarded fallback entry at `now + 300`. -/
theorem C7_zero_survivor_synthesis_witness :
    (_parse_ai_response ⟨none, none, []⟩ ⟨"e1", "S", "", "", 10000⟩ 0).reminder_times
      = [300] ∧
    (_fallback_analysis ⟨"e2", "T", "", "", 120⟩ 0).reminder_times = [0 + 300] := by
  constructor
  · have := (C7_zero_survivor_synthesis ⟨none, none, []⟩
      ⟨"e1", "S", "", "", 10000⟩ 0).1 rfl
    simpa using this
  · exact (C7_zero_survivor_synthesis ⟨none, none, []⟩ ⟨"e2", "T", "", "", 120⟩ 0).2
      (by norm_num)

/-- Invariant of the real system: the `processed_events` dict only ever stores
`{'hash': ..., 'analysis': ...}` records (never bare strings). -/
def CacheWF (c : List (String × PyVal)) : Prop :=
  ∀ p ∈ c, ∃ h a, p.2 = PyVal.record h a

/-- A looked-up cache value is one of the stored ones. -/
theorem dictGet_record (c : List (String × PyVal)) (k : String) (v : PyVal)
    (hwf : CacheWF c) (hd : dictGet c k = some v) : ∃ h a, v = PyVal.record h a := by
  unfold dictGet at hd
  cases hf : c.find? fun p => p.1 == k with
  | none => rw [hf] at hd; cases hd
  | some p =>
      rw [hf] at hd
      cases hd
      exact hwf p (List.mem_of_find?_eq_some hf)

/-- Storing a record keeps the cache well-formed. -/
theorem dictSet_WF (c : List (String × PyVal)) (k : String) (h : String) (a : Analysis)
    (hwf : CacheWF c) : CacheWF (dictSet c k (PyVal.record h a)) := by
  intro p hp
  rcases List.mem_cons.mp hp with rfl | hp
  · exact ⟨h, a, rfl⟩
  · exact hwf p (List.mem_filter.mp hp).1

/-- On a well-formed cache the plan used for an event is always the oracle's
answer for it (the stored record never compares equal to the bare hash string,
so the reuse branch is dead), and the cache stays well-formed. -/
theorem planFor_analysis (ai : Event → Instant → Analysis) (now : Instant)
    (s : CycleState) (e : Event) (hwf : CacheWF s.processed_events) :
    (planFor ai now s e).2 = ai e now ∧
    CacheWF (planFor ai now s e).1.processed_events := by
  cases hd : dictGet s.processed_events e.id with
  | none =>
      constructor
      · simp [planFor, hd]
      · simp only [planFor, hd]
        exact dictSet_WF _ _ _ _ hwf
  | some v =>
      obtain ⟨h, a, rfl⟩ := dictGet_record s.processed_events e.id v hwf hd
      constructor
      · simp [planFor, hd, pyNeStr]
      · simp only [planFor, hd, pyNeStr, if_pos]
        exact dictSet_WF _ _ _ _ hwf

/-- The reminder loop does not change the cache. -/
theorem foldl_processReminder_cache (cfg : NotifierConfig)
    (emailOk telegramOk : String → Instant → Bool) (now : Instant) (e : Event)
    (rms : List (Instant × String)) :
    ∀ s : CycleState,
      (rms.foldl (processReminder cfg emailOk telegramOk now e) s).processed_events
        = s.processed_events := by
  induction rms with
  | nil => intro s; rfl
  | cons rm rms ih =>
      intro s
      rw [List.foldl_cons, ih _, processReminder_cache]

/-- Processing one event keeps the cache well-formed. -/
theorem processEvent_WF (ai : Event → Instant → Analysis) (cfg : NotifierConfig)
    (emailOk telegramOk : String → Instant → Bool) (now : Instant)
    (s : CycleState) (e : Event) (hwf : CacheWF s.processed_events) :
    CacheWF (processEvent ai cfg emailOk telegramOk now s e).processed_events := by
  unfold processEvent
  rw [foldl_processReminder_cache]
  exact (planFor_analysis ai now s e hwf).2

/-- The whole event loop keeps the cache well-formed. -/
theorem processAllEvents_WF (ai : Event → Instant → Analysis) (cfg : NotifierConfig)
    (emailOk telegramOk : String → Instant → Bool) (now : Instant)
    (events : List Event) :
    ∀ s : CycleState, CacheWF s.processed_events →
      CacheWF (processAllEvents ai cfg emailOk telegramOk now events s).processed_events := by
  induction events with
  | nil => intro s h; exact h
  | cons e es ih =>
      intro s h
      unfold processAllEvents at *
      rw [List.foldl_cons]
      exact ih _ (processEvent_WF ai cfg emailOk telegramOk now s e h)

/-- Ledger membership is monotone across one event's reminder loop. -/
theorem foldl_processReminder_mono (cfg : NotifierConfig)
    (emailOk telegramOk : String → Instant → Bool) (now : Instant) (e : Event)
    (eid : String) (t : Instant) (rms : List (Instant × String)) :
    ∀ s : CycleState, reminder_already_sent s.ledger eid t = true →
      reminder_already_sent
        ((rms.foldl (processReminder cfg emailOk telegramOk now e) s)).ledger eid t = true := by
  induction rms with
  | nil => intro s h; exact h
  | cons rm rms ih =>
      intro s h
      rw [List.foldl_cons]
      exact ih _ (processReminder_ledger_mono cfg emailOk telegramOk now e s rm eid t h)

/-- Ledger membership is monotone across one event. -/
theorem processEvent_mono (ai : Event → Instant → Analysis) (cfg : NotifierConfig)
    (emailOk telegramOk : String → Instant → Bool) (now : Instant)
    (s : CycleState) (e : Event) (eid : String) (t : Instant)
    (h : reminder_already_sent s.ledger eid t = true) :
    reminder_already_sent
      (processEvent ai cfg emailOk telegramOk now s e).ledger eid t = true := by
  unfold processEvent
  apply foldl_processReminder_mono
  rw [(planFor_state ai now s e).1]
  exact h

/-- Ledger membership is monotone across the whole event loop. -/
theorem processAllEvents_mono (ai : Event → Instant → Analysis) (cfg : NotifierConfig)
    (emailOk telegramOk : String → Instant → Bool) (now : Instant)
    (events : List Event) (eid : String) (t : Instant) :
    ∀ s : CycleState, reminder_already_sent s.ledger eid t = true →
      reminder_already_sent
        (processAllEvents ai cfg emailOk telegramOk now events s).ledger eid t = true := by
  induction events with
  | nil => intro s h; exact h
  | cons e es ih =>
      intro s h
      unfold processAllEvents at *
      rw [List.foldl_cons]
      exact ih _ (processEvent_mono ai cfg emailOk telegramOk now s e eid t h)

/-- Under an always-successful gateway, after one event's reminder loop every
due reminder of that loop is recorded in the ledger. -/
theorem foldl_processReminder_cover (cfg : NotifierConfig)
    (emailOk telegramOk : String → Instant → Bool) (now : Instant) (e : Event)
    (hok : ∀ eid t, send_reminder cfg (emailOk eid t) (telegramOk eid t) = true)
    (rms : List (Instant × String)) :
    ∀ s : CycleState, ∀ rm ∈ rms, rm.1 - now ≤ 1200 →
      reminder_already_sent
        ((rms.foldl (processReminder cfg emailOk telegramOk now e) s)).ledger e.id rm.1
          = true := by
  induction rms with
  | nil => intro s rm hm; cases hm
  | cons rm0 rms ih =>
      intro s rm hm hdue
      rcases List.mem_cons.mp hm with rfl | hm
      · rw [List.foldl_cons]
        apply foldl_processReminder_mono
        simp only [processReminder]
        rw [if_pos hdue]
        by_cases hs : reminder_already_sent s.ledger e.id rm.1 = true
        · rw [if_pos hs]; exact hs
        · rw [if_neg hs, if_pos (hok e.id rm.1)]
          simp [mark_reminder_sent, reminder_already_sent, List.any_append]
      · rw [List.foldl_cons]
        exact ih _ rm hm hdue

/-- Under an always-successful gateway and a well-formed cache, processing an
event records every due reminder of its (oracle-determined) plan. -/
theorem processEvent_cover (ai : Event → Instant → Analysis) (cfg : NotifierConfig)
    (emailOk telegramOk : String → Instant → Bool) (now : Instant)
    (s : CycleState) (e : Event) (hwf : CacheWF s.processed_events)
    (hok : ∀ eid t, send_reminder cfg (emailOk eid t) (telegramOk eid t) = true) :
    ∀ rm ∈ (ai e now).reminder_times.zip (ai e now).reminder_messages,
      rm.1 - now ≤ 1200 →
      reminder_already_sent
        (processEvent ai cfg emailOk telegramOk now s e).ledger e.id rm.1 = true := by
  intro rm hm hdue
  simp only [processEvent]
  rw [(planFor_analysis ai now s e hwf).1]
  exact foldl_processReminder_cover cfg emailOk telegramOk now e hok _ _ rm hm hdue

/-- Under an always-successful gateway, after the whole event loop every due
reminder of every processed event's plan is recorded in the ledger. -/
theorem processAllEvents_cover (ai : Event → Instant → Analysis) (cfg : NotifierConfig)
    (emailOk telegramOk : String → Instant → Bool) (now : Instant)
    (events : List Event)
    (hok : ∀ eid t, send_reminder cfg (emailOk eid t) (telegramOk eid t) = true) :
    ∀ s : CycleState, CacheWF s.processed_events →
      ∀ e ∈ events, ∀ rm ∈ (ai e now).reminder_times.zip (ai e now).reminder_messages,
        rm.1 - now ≤ 1200 →
        reminder_already_sent
          (processAllEvents ai cfg emailOk telegramOk now events s).ledger e.id rm.1
            = true := by
  induction events with
  | nil => intro s _ e he; cases he
  | cons e0 es ih =>
      intro s hwf e he rm hm hdue
      rcases List.mem_cons.mp he with rfl | he
      · unfold processAllEvents
        rw [List.foldl_cons]
        exact processAllEvents_mono ai cfg emailOk telegramOk now es e.id rm.1 _
          (processEvent_cover ai cfg emailOk telegramOk now s e hwf hok rm hm hdue)
      · unfold processAllEvents at *
        rw [List.foldl_cons]
        exact ih _ (processEvent_WF ai cfg emailOk telegramOk now s e0 hwf) e he rm hm hdue

/-- Any ledger entry after a per-reminder step was already there or snapshots
the processed event's start time. -/
theorem processReminder_provenance (cfg : NotifierConfig)
    (emailOk telegramOk : String → Instant → Bool) (now : Instant) (e : Event)
    (s : CycleState) (rm : Instant × String) (en : LedgerEntry)
    (hen : en ∈ (processReminder cfg emailOk telegramOk now e s rm).ledger) :
    en ∈ s.ledger ∨ en.event_start_time = e.start_time := by
  simp only [processReminder] at hen
  split at hen
  · split at hen
    · exact Or.inl hen
    · split at hen
      · simp only [mark_reminder_sent] at hen
        rcases List.mem_append.mp hen with hen | hen
        · exact Or.inl hen
        · rw [List.mem_singleton.mp hen]
          exact Or.inr rfl
      · exact Or.inl hen
  · exact Or.inl hen

/-- Provenance across one event's reminder loop. -/
theorem foldl_processReminder_provenance (cfg : NotifierConfig)
    (emailOk telegramOk : String → Instant → Bool) (now : Instant) (e : Event)
    (rms : List (Instant × String)) :
    ∀ s : CycleState, ∀ en ∈ (rms.foldl (processReminder cfg emailOk telegramOk now e) s).ledger,
      en ∈ s.ledger ∨ en.event_start_time = e.start_time := by
  induction rms with
  | nil => intro s en hen; exact Or.inl hen
  | cons rm rms ih =>
      intro s en hen
      rw [List.foldl_cons] at hen
      rcases ih _ en hen with hen' | hen'
      · exact processReminder_provenance cfg emailOk telegramOk now e s rm en hen'
      · exact Or.inr hen'

/-- Provenance across the whole event loop: every entry was present initially
or snapshots the start time of one of the processed events. -/
theorem processAllEvents_provenance (ai : Event → Instant → Analysis)
    (cfg : NotifierConfig) (emailOk telegramOk : String → Instant → Bool)
    (now : Instant) (events : List Event) :
    ∀ s : CycleState, ∀ en ∈ (processAllEvents ai cfg emailOk telegramOk now events s).ledger,
      en ∈ s.ledger ∨ ∃ e ∈ events, en.event_start_time = e.start_time := by
  induction events with
  | nil => intro s en hen; exact Or.inl hen
  | cons e es ih =>
      intro s en hen
      unfold processAllEvents at hen
      rw [List.foldl_cons] at hen
      rcases ih _ en hen with hen' | hen'
      · simp only [processEvent] at hen'
        rcases foldl_processReminder_provenance cfg emailOk telegramOk now e _ _ en hen'
          with hen'' | hen''
        · rw [(planFor_state ai now s e).1] at hen''
          exact Or.inl hen''
        · exact Or.inr ⟨e, List.mem_cons_self e es, hen''⟩
      · obtain ⟨e', he', hst⟩ := hen'
        exact Or.inr ⟨e', List.mem_cons_of_mem e he', hst⟩

/-- If every due reminder of a loop is already in the ledger, the loop leaves
ledger, gateway log and sent counter untouched. -/
theorem foldl_processReminder_skip (cfg : NotifierConfig)
    (emailOk telegramOk : String → Instant → Bool) (now : Instant) (e : Event)
    (rms : List (Instant × String)) :
    ∀ s : CycleState,
      (∀ rm ∈ rms, rm.1 - now ≤ 1200 →
        reminder_already_sent s.ledger e.id rm.1 = true) →
      (rms.foldl (processReminder cfg emailOk telegramOk now e) s).ledger = s.ledger ∧
      (rms.foldl (processReminder cfg emailOk telegramOk now e) s).gatewayCalls
        = s.gatewayCalls ∧
      (rms.foldl (processReminder cfg emailOk telegramOk now e) s).reminders_sent
        = s.reminders_sent := by
  induction rms with
  | nil => intro s _; exact ⟨rfl, rfl, rfl⟩
  | cons rm rms ih =>
      intro s hcov
      have hstep :
          (processReminder cfg emailOk telegramOk now e s rm).ledger = s.ledger ∧
          (processReminder cfg emailOk telegramOk now e s rm).gatewayCalls
            = s.gatewayCalls ∧
          (processReminder cfg emailOk telegramOk now e s rm).reminders_sent
            = s.reminders_sent := by
        simp only [processReminder]
        by_cases hdue : rm.1 - now ≤ 1200
        · rw [if_pos hdue,
            if_pos (hcov rm (List.mem_cons_self rm rms) hdue)]
          exact ⟨rfl, rfl, rfl⟩
        · rw [if_neg hdue]
          exact ⟨rfl, rfl, rfl⟩
      have hrest := ih (processReminder cfg emailOk telegramOk now e s rm)
        (fun rm' hm hd => by
          rw [hstep.1]
          exact hcov rm' (List.mem_cons_of_mem rm hm) hd)
      rw [List.foldl_cons]
      refine ⟨?_, ?_, ?_⟩
      · rw [hrest.1, hstep.1]
      · rw [hrest.2.1, hstep.2.1]
      · rw [hrest.2.2, hstep.2.2]

/-- If every due reminder of an event's plan is already in the ledger, the
event's processing leaves ledger, gateway log and sent counter untouched (and
keeps the cache well-formed). -/
theorem processEvent_skip (ai : Event → Instant → Analysis) (cfg : NotifierConfig)
    (emailOk telegramOk : String → Instant → Bool) (now : Instant)
    (s : CycleState) (e : Event) (hwf : CacheWF s.processed_events)
    (hcov : ∀ rm ∈ (ai e now).reminder_times.zip (ai e now).reminder_messages,
      rm.1 - now ≤ 1200 → reminder_already_sent s.ledger e.id rm.1 = true) :
    (processEvent ai cfg emailOk telegramOk now s e).ledger = s.ledger ∧
    (processEvent ai cfg emailOk telegramOk now s e).gatewayCalls = s.gatewayCalls ∧
    (processEvent ai cfg emailOk telegramOk now s e).reminders_sent = s.reminders_sent := by
  simp only [processEvent]
  rw [(planFor_analysis ai now s e hwf).1]
  have hst := planFor_state ai now s e
  have := foldl_processReminder_skip cfg emailOk telegramOk now e
    ((ai e now).reminder_times.zip (ai e now).reminder_messages)
    (planFor ai now s e).1
    (fun rm hm hd => by rw [hst.1]; exact hcov rm hm hd)
  refine ⟨?_, ?_, ?_⟩
  · rw [this.1, hst.1]
  · rw [this.2.1, hst.2.1]
  · rw [this.2.2, hst.2.2.1]

/-- If every due reminder of every event's plan is already in the ledger, the
whole event loop leaves ledger, gateway log and sent counter untouched. -/
theorem processAllEvents_skip (ai : Event → Instant → Analysis) (cfg : NotifierConfig)
    (emailOk telegramOk : String → Instant → Bool) (now : Instant)
    (events : List Event) :
    ∀ s : CycleState, CacheWF s.processed_events →
      (∀ e ∈ events, ∀ rm ∈ (ai e now).reminder_times.zip (ai e now).reminder_messages,
        rm.1 - now ≤ 1200 → reminder_already_sent s.ledger e.id rm.1 = true) →
      (processAllEvents ai cfg emailOk telegramOk now events s).ledger = s.ledger ∧
      (processAllEvents ai cfg emailOk telegramOk now events s).gatewayCalls
        = s.gatewayCalls ∧
      (processAllEvents ai cfg emailOk telegramOk now events s).reminders_sent
        = s.reminders_sent := by
  induction events with
  | nil => intro s _ _; exact ⟨rfl, rfl, rfl⟩
  | cons e es ih =>
      intro s hwf hcov
      have hstep := processEvent_skip ai cfg emailOk telegramOk now s e hwf
        (fun rm hm hd => hcov e (List.mem_cons_self e es) rm hm hd)
      have hrest := ih (processEvent ai cfg emailOk telegramOk now s e)
        (processEvent_WF ai cfg emailOk telegramOk now s e hwf)
        (fun e' he' rm hm hd => by
          rw [hstep.1]
          exact hcov e' (List.mem_cons_of_mem e he') rm hm hd)
      unfold processAllEvents at *
      rw [List.foldl_cons]
      refine ⟨?_, ?_, ?_⟩
      · rw [hrest.1, hstep.1]
      · rw [hrest.2.1, hstep.2.1]
      · rw [hrest.2.2, hstep.2.2]

/-- If no ledger entry is older than the prune cutoff (or the cutoff
computation raised), the prune step leaves the ledger unchanged. -/
theorem cleanup_step_ledger_keep (cutoffOpt : Option Instant) (s : CycleState)
    (h : ∀ c, cutoffOpt = some c → ∀ en ∈ s.ledger, ¬(en.event_start_time < c)) :
    (cleanup_step cutoffOpt s).ledger = s.ledger := by
  cases hco : cutoffOpt with
  | none => rfl
  | some c =>
      simp only [cleanup_step]
      apply List.filter_eq_self.mpr
      intro en hen
      simpa using h c hco en hen

/-- Claim C9: running the full cycle twice in immediate succession — same
`now`, same fetched events, all deliveries succeeding — sends nothing the
second time: the second run invokes the gateway zero times and counts zero
reminders sent.  (The prune hypothesis reflects normal operation: fetched
events start at or after `now`, ledger snapshots postdate any cutoff the
mid-cycle prune may compute; with the 30-day retention the prune in fact
raises on most dates and is a no-op.) -/
theorem C9_second_run_sends_nothing (ai : Event → Instant → Analysis)
    (cfg : NotifierConfig) (emailOk telegramOk : String → Instant → Bool)
    (now : Instant) (cutoffOpt : Option Instant) (events : List Event)
    (cache : List (String × PyVal)) (ledger : List LedgerEntry)
    (hwf : CacheWF cache)
    (hok : ∀ eid t, send_reminder cfg (emailOk eid t) (telegramOk eid t) = true)
    (hcut : ∀ c, cutoffOpt = some c →
      (∀ e ∈ events, ¬(e.start_time < c)) ∧
      (∀ en ∈ ledger, ¬(en.event_start_time < c))) :
    (check_and_send_reminders ai cfg emailOk telegramOk now cutoffOpt events
      (initCycleState
        (check_and_send_reminders ai cfg emailOk telegramOk now cutoffOpt events
          (initCycleState cache ledger)).processed_events
        (check_and_send_reminders ai cfg emailOk telegramOk now cutoffOpt events
          (initCycleState cache ledger)).ledger)).gatewayCalls = [] ∧
    (check_and_send_reminders ai cfg emailOk telegramOk now cutoffOpt events
      (initCycleState
        (check_and_send_reminders ai cfg emailOk telegramOk now cutoffOpt events
          (initCycleState cache ledger)).processed_events
        (check_and_send_reminders ai cfg emailOk telegramOk now cutoffOpt events
          (initCycleState cache ledger)).ledger)).reminders_sent = 0 := by
  by_cases hemp : events.isEmpty = true
  · simp [check_and_send_reminders, hemp, initCycleState]
  · set s0 : CycleState := initCycleState cache ledger with hs0
    set sA : CycleState := processAllEvents ai cfg emailOk telegramOk now events s0 with hsA
    have hrun1 : check_and_send_reminders ai cfg emailOk telegramOk now cutoffOpt events s0
        = cleanup_step cutoffOpt sA := by
      unfold check_and_send_reminders
      rw [if_neg hemp]
    have hwf0 : CacheWF s0.processed_events := hwf
    have hcovA := processAllEvents_cover ai cfg emailOk telegramOk now events hok s0 hwf0
    have hkeep : (cleanup_step cutoffOpt sA).ledger = sA.ledger := by
      apply cleanup_step_ledger_keep
      intro c hc en hen
      rcases processAllEvents_provenance ai cfg emailOk telegramOk now events s0 en hen
        with hmem | ⟨e, he, hst⟩
      · exact (hcut c hc).2 en hmem
      · rw [hst]
        exact (hcut c hc).1 e he
    rw [hrun1]
    set s0' : CycleState := initCycleState (cleanup_step cutoffOpt sA).processed_events
      (cleanup_step cutoffOpt sA).ledger with hs0'
    have hwf1 : CacheWF s0'.processed_events := by
      have h1 : s0'.processed_events = sA.processed_events :=
        (cleanup_step_fields cutoffOpt sA).1
      rw [h1]
      exact processAllEvents_WF ai cfg emailOk telegramOk now events s0 hwf0
    have hcov2 : ∀ e ∈ events,
        ∀ rm ∈ (ai e now).reminder_times.zip (ai e now).reminder_messages,
        rm.1 - now ≤ 1200 →
        reminder_already_sent s0'.ledger e.id rm.1 = true := by
      intro e he rm hm hd
      have h1 : s0'.ledger = sA.ledger := hkeep
      rw [h1]
      exact hcovA e he rm hm hd
    have hskip := processAllEvents_skip ai cfg emailOk telegramOk now events s0' hwf1 hcov2
    have hrun2 : check_and_send_reminders ai cfg emailOk telegramOk now cutoffOpt events s0'
        = cleanup_step cutoffOpt (processAllEvents ai cfg emailOk telegramOk now events s0') := by
      unfold check_and_send_reminders
      rw [if_neg hemp]
    rw [hrun2]
    constructor
    · rw [(cleanup_step_fields cutoffOpt _).2.1, hskip.2.1]
      rfl
    · rw [(cleanup_step_fields cutoffOpt _).2.2.1, hskip.2.2]
      rfl

/-- Oracle resolution for the idempotent re-run witness. -/
def idemAi : Event → Instant → Analysis :=
  fun e _ => ⟨"sum", 7, [e.start_time - 900], ["m"]⟩

/-- Event for the idempotent re-run witness: one reminder due at `now + 600`. -/
def idemEvent : Event := ⟨"e9", "Review", "", "HQ", 1500⟩

/-- First cycle for the idempotent re-run witness. -/
def idemRun1 : CycleState :=
  check_and_send_reminders idemAi ⟨true, false⟩ (fun _ _ => true) (fun _ _ => true)
    0 none [idemEvent] (initCycleState [] [])

/-- Second cycle, same instant and events, state carried over. -/
def idemRun2 : CycleState :=
  check_and_send_reminders idemAi ⟨true, false⟩ (fun _ _ => true) (fun _ _ => true)
    0 none [idemEvent] (initCycleState idemRun1.processed_events idemRun1.ledger)

/-- Witness for C9: on a concrete due reminder with a succeeding email channel,
the second cycle makes zero gateway calls and counts zero sends. -/
theorem C9_second_run_sends_nothing_witness :
    idemRun2.gatewayCalls = [] ∧ idemRun2.reminders_sent = 0 := by
  exact C9_second_run_sends_nothing idemAi ⟨true, false⟩ (fun _ _ => true)
    (fun _ _ => true) 0 none [idemEvent] [] []
    (by intro p hp; cases hp)
    (fun _ _ => rfl)
    (fun c hc => nomatch hc)
